import Mathlib

/-!
Shallow embedding of the fgp-github service core: credential resolution,
GraphQL envelope handling, response mapping, and RPC method dispatch,
translated from src/api/client.rs, src/service.rs and src/models.rs.
Network and filesystem effects are modelled as explicit inputs (oracle
values standing for the responses the transport or filesystem would
return); anyhow errors are modelled as their message strings.
-/

namespace FgpGithub

/-! ## Domain data model (src/models.rs) -/

/-- GitHub user (models.rs, struct User). Rust i32 counters are modelled as Int. -/
structure User where
  login : String
  name : Option String
  email : Option String
  avatar_url : String
  bio : Option String
  company : Option String
  location : Option String
  website_url : Option String
  twitter_username : Option String
  public_repos : Int
  followers : Int
  following : Int
  created_at : String
deriving Repr, DecidableEq

/-- GitHub repository (models.rs, struct Repository). -/
structure Repository where
  name : String
  full_name : String
  description : Option String
  url : String
  is_private : Bool
  is_fork : Bool
  stars : Int
  forks : Int
  language : Option String
  updated_at : String
  pushed_at : Option String
deriving Repr, DecidableEq

/-- GitHub issue (models.rs, struct Issue). -/
structure Issue where
  number : Int
  title : String
  state : String
  url : String
  created_at : String
  updated_at : String
  author : Option String
  labels : List String
  comment_count : Int
deriving Repr, DecidableEq

/-- GitHub PR review (models.rs, struct Review). -/
structure Review where
  author : Option String
  state : String
  submitted_at : Option String
deriving Repr, DecidableEq

/-- GitHub pull request (models.rs, struct PullRequest). -/
structure PullRequest where
  number : Int
  title : String
  state : String
  url : String
  is_draft : Bool
  mergeable : String
  created_at : String
  updated_at : String
  author : Option String
  head_branch : String
  base_branch : String
  additions : Int
  deletions : Int
  changed_files : Int
  commit_count : Int
  comment_count : Int
  reviews : List Review
deriving Repr, DecidableEq

/-- GitHub notification (models.rs, struct Notification). -/
structure Notification where
  id : String
  unread : Bool
  reason : String
  subject_title : String
  subject_type : String
  subject_url : Option String
  repo_full_name : String
  updated_at : String
deriving Repr, DecidableEq

/-- A JSON value, standing for serde_json::Value; numbers restricted to the
integers that the i32 fields of the models serialize to. -/
inductive Json where
  | null : Json
  | bool (b : Bool) : Json
  | num (n : Int) : Json
  | str (s : String) : Json
  | arr (xs : List Json) : Json
  | obj (fields : List (String × Json)) : Json

/-- GraphQL error (models.rs, struct GraphQLError). -/
structure GraphQLError where
  message : String
  path : Option (List Json)

/-- GraphQL response wrapper (models.rs, struct GraphQLResponse). -/
structure GraphQLResponse (T : Type) where
  data : Option T
  errors : Option (List GraphQLError)

/-! ## Credential resolution (client.rs, GitHubClient::new / resolve_token) -/

/-- The ambient inputs of credential resolution: the two environment
variables (some s when the variable is set, holding its value) and the
outcome of reading the gh CLI config file, which is not under src and is
therefore kept abstract as the value read_gh_token would return. -/
structure CredentialEnv where
  github_token : Option String
  gh_token : Option String
  gh_config_token : Except String String

/-- Reading the token from the gh CLI config file (client.rs, read_gh_token);
its filesystem behaviour is the oracle stored in the environment. -/
def read_gh_token (env : CredentialEnv) : Except String String :=
  env.gh_config_token

/-- Second and third steps of resolve_token: try GH_TOKEN, then the config file. -/
def resolve_token_tail (env : CredentialEnv) : Except String String :=
  match env.gh_token with
  | some token => if !token.isEmpty then Except.ok token else read_gh_token env
  | none => read_gh_token env

/-- Token resolution from environment or gh CLI config (client.rs, resolve_token):
GITHUB_TOKEN if set and non-empty, else GH_TOKEN if set and non-empty, else the
config file. -/
def resolve_token (env : CredentialEnv) : Except String String :=
  match env.github_token with
  | some token => if !token.isEmpty then Except.ok token else resolve_token_tail env
  | none => resolve_token_tail env

/-- Token selection in GitHubClient::new (client.rs line 31): an explicit
token parameter is used as given; only when it is absent is resolve_token
consulted. -/
def new_token (token : Option String) (env : CredentialEnv) : Except String String :=
  match token with
  | some t => Except.ok t
  | none => resolve_token env

/-! ## GraphQL envelope handling (client.rs, GitHubClient::graphql, lines 148-158) -/

/-- Joined error messages, as errors.iter().map(message).join(", "). -/
def joinMessages (errors : List GraphQLError) : String :=
  String.intercalate ", " (errors.map GraphQLError.message)

/-- The error/data check that graphql performs on a successfully parsed
envelope: if data is absent and the error list is present and non-empty,
fail with the joined messages; otherwise return data or fail because it
is missing. -/
def graphqlCheck {T : Type} (r : GraphQLResponse T) : Except String T :=
  match r.data with
  | some d => Except.ok d
  | none =>
    match r.errors with
    | some errors =>
      if !errors.isEmpty then
        Except.error ("GraphQL errors: " ++ joinMessages errors)
      else
        Except.error "GraphQL response missing data field"
    | none => Except.error "GraphQL response missing data field"

/-! ## parse_repo (service.rs, GitHubService::parse_repo) -/

/-- Split a character list at every occurrence of the separator, keeping
empty segments, as the str split method of Rust does: the empty input gives
one empty segment. -/
def splitChar (sep : Char) : List Char → List (List Char)
  | [] => [[]]
  | c :: cs =>
    if c == sep then [] :: splitChar sep cs
    else
      match splitChar sep cs with
      | [] => [[c]]
      | p :: ps => (c :: p) :: ps

/-- The list of parts of a string split at a separator character,
modelling str split in Rust. -/
def split_parts (s : String) (sep : Char) : List String :=
  (splitChar sep s.toList).map String.mk

/-- Parse owner/repo from the compound repo parameter (service.rs lines 53-62):
split on the slash; any part count other than two fails. -/
def parse_repo (repo_str : String) : Except String (String × String) :=
  let parts := split_parts repo_str '/'
  if parts.length ≠ 2 then
    Except.error ("Invalid repo format. Expected owner/repo, got: " ++ repo_str)
  else
    Except.ok (parts.getD 0 "", parts.getD 1 "")

/-! ## State-filter normalization (client.rs, list_issues lines 424-429 and
list_prs lines 742-748) -/

/-- Character-wise upper-casing of a string, modelling the str
to_uppercase method of Rust on the ASCII tokens the filter matches. -/
def to_uppercase (s : String) : String :=
  String.mk (s.toList.map Char.toUpper)

/-- Issue state filter chosen by list_issues from the caller state token. -/
def issue_states (state : String) : String :=
  match to_uppercase state with
  | "OPEN" => "[OPEN]"
  | "CLOSED" => "[CLOSED]"
  | "ALL" => "[OPEN, CLOSED]"
  | _ => "[OPEN]"

/-- Pull-request state filter chosen by list_prs from the caller state token. -/
def pr_states (state : String) : String :=
  match to_uppercase state with
  | "OPEN" => "[OPEN]"
  | "CLOSED" => "[CLOSED]"
  | "MERGED" => "[MERGED]"
  | "ALL" => "[OPEN, CLOSED, MERGED]"
  | _ => "[OPEN]"

/-! ## Ping and health (client.rs ping, service.rs health / health_check) -/

/-- The viewer record of the ping query (client.rs, struct Viewer inside ping). -/
structure Viewer where
  login : String
deriving Repr, DecidableEq

/-- The response shape of the ping query (client.rs, struct ViewerResponse inside ping). -/
structure PingResponse where
  viewer : Viewer
deriving Repr, DecidableEq

/-- GitHubClient::ping (client.rs lines 186-207): run the viewer query and,
on success, report whether the login is non-empty. The argument is the
outcome the graphql call would produce. -/
def ping (resp : Except String PingResponse) : Except String Bool :=
  match resp with
  | Except.ok result => Except.ok (!result.viewer.login.isEmpty)
  | Except.error e => Except.error e

/-- The envelope GitHubService::health returns (service.rs lines 68-77),
without the static version field. -/
structure HealthResult where
  status : String
  api_connected : Bool
deriving Repr, DecidableEq

/-- GitHubService::health (service.rs lines 68-77): propagate a ping failure,
otherwise report healthy exactly when ping returned true. -/
def health (pingResult : Except String Bool) : Except String HealthResult :=
  match pingResult with
  | Except.ok ok =>
    Except.ok { status := if ok then "healthy" else "unhealthy", api_connected := ok }
  | Except.error e => Except.error e

/-- Health status entries of the serving framework (fgp_daemon HealthStatus),
with the latency measurement abstracted away. -/
inductive HealthStatus where
  | healthy_with_latency : HealthStatus
  | unhealthy (msg : String) : HealthStatus
deriving Repr, DecidableEq

/-- GitHubService::health_check (service.rs lines 369-391): the value stored
under the github_api key of the returned map. -/
def health_check (pingResult : Except String Bool) : HealthStatus :=
  match pingResult with
  | Except.ok true => HealthStatus.healthy_with_latency
  | Except.ok false => HealthStatus.unhealthy "Empty viewer login"
  | Except.error e => HealthStatus.unhealthy e

/-! ## Method dispatch (service.rs, GitHubService::dispatch, lines 219-231) -/

/-- The handlers of the dispatch table, one per arm of the match. -/
inductive MethodHandler where
  | health : MethodHandler
  | user : MethodHandler
  | repos : MethodHandler
  | issues : MethodHandler
  | prs : MethodHandler
  | pr : MethodHandler
  | notifications : MethodHandler
  | create_issue : MethodHandler
deriving Repr, DecidableEq

/-- The routing part of GitHubService::dispatch (service.rs lines 219-231):
which handler a method name selects, or the unknown-method error. -/
def dispatch_route (method : String) : Except String MethodHandler :=
  if method = "health" then Except.ok MethodHandler.health
  else if method = "user" ∨ method = "github.user" then Except.ok MethodHandler.user
  else if method = "repos" ∨ method = "github.repos" then Except.ok MethodHandler.repos
  else if method = "issues" ∨ method = "github.issues" then Except.ok MethodHandler.issues
  else if method = "prs" ∨ method = "github.prs" then Except.ok MethodHandler.prs
  else if method = "pr" ∨ method = "github.pr" then Except.ok MethodHandler.pr
  else if method = "notifications" ∨ method = "github.notifications" then
    Except.ok MethodHandler.notifications
  else if method = "create_issue" ∨ method = "github.create_issue" then
    Except.ok MethodHandler.create_issue
  else Except.error ("Unknown method: " ++ method)

/-! ## Current-user retrieval with email-scope fallback (client.rs, get_user) -/

/-- Whether the first character list is a prefix of the second. -/
def charPrefix : List Char → List Char → Bool
  | [], _ => true
  | _ :: _, [] => false
  | a :: as, b :: bs => a == b && charPrefix as bs

/-- Whether the needle occurs as a contiguous run inside the haystack. -/
def charContains (needle : List Char) : List Char → Bool
  | [] => charPrefix needle []
  | b :: bs => charPrefix needle (b :: bs) || charContains needle bs

/-- Substring test, modelling the str contains method of Rust. -/
def strContains (hay needle : String) : Bool :=
  charContains needle.toList hay.toList

/-- Total-count wrapper of connection fields (client.rs, struct CountWrapper). -/
structure CountWrapper where
  total_count : Int
deriving Repr, DecidableEq

/-- The viewer record of the full user query (client.rs, struct ViewerData
inside get_user); the one-field ViewerResponse wrapper is elided. -/
structure ViewerData where
  login : String
  name : Option String
  email : Option String
  avatar_url : String
  bio : Option String
  company : Option String
  location : Option String
  website_url : Option String
  twitter_username : Option String
  repositories : CountWrapper
  followers : CountWrapper
  following : CountWrapper
  created_at : String
deriving Repr, DecidableEq

/-- The viewer fields the reduced fallback query requests: the same data
without the email field (client.rs, query_without_email). -/
structure ViewerDataNoEmail where
  login : String
  name : Option String
  avatar_url : String
  bio : Option String
  company : Option String
  location : Option String
  website_url : Option String
  twitter_username : Option String
  repositories : CountWrapper
  followers : CountWrapper
  following : CountWrapper
  created_at : String
deriving Repr, DecidableEq

/-- Deserializing the fallback response into ViewerData: the email key is
absent from that response, so the serde default on the email field yields
none. -/
def ViewerDataNoEmail.toViewerData (f : ViewerDataNoEmail) : ViewerData :=
  { login := f.login
    name := f.name
    email := none
    avatar_url := f.avatar_url
    bio := f.bio
    company := f.company
    location := f.location
    website_url := f.website_url
    twitter_username := f.twitter_username
    repositories := f.repositories
    followers := f.followers
    following := f.following
    created_at := f.created_at }

/-- The User value built at the end of get_user (client.rs lines 311-325). -/
def userFromViewer (v : ViewerData) : User :=
  { login := v.login
    name := v.name
    email := v.email
    avatar_url := v.avatar_url
    bio := v.bio
    company := v.company
    location := v.location
    website_url := v.website_url
    twitter_username := v.twitter_username
    public_repos := v.repositories.total_count
    followers := v.followers.total_count
    following := v.following.total_count
    created_at := v.created_at }

/-- The textual missing-scope signature get_user matches on (client.rs
line 302): the message mentions the user:email or the read:user scope. -/
def scopeErrorSignature (e : String) : Bool :=
  strContains e "user:email" || strContains e "read:user"

/-- GitHubClient::get_user (client.rs lines 296-326): try the query with
email; on a failure whose message carries the missing-scope signature,
retry once with the reduced query; map the resulting viewer into a User.
The two arguments are the outcomes the two graphql calls would produce. -/
def get_user (first : Except String ViewerData)
    (second : Except String ViewerDataNoEmail) : Except String User :=
  match first with
  | Except.ok v => Except.ok (userFromViewer v)
  | Except.error e =>
    if scopeErrorSignature e then
      match second with
      | Except.ok f => Except.ok (userFromViewer f.toViewerData)
      | Except.error e2 => Except.error e2
    else Except.error e

/-! ## Issue creation (client.rs, create_issue, lines 914-990) -/

/-- Author node of GraphQL responses (client.rs, struct AuthorNode). -/
structure AuthorNode where
  login : String
deriving Repr, DecidableEq

/-- The issue node returned by the createIssue mutation (client.rs, struct
IssueNode inside create_issue). -/
structure CreatedIssueNode where
  number : Int
  title : String
  state : String
  url : String
  created_at : String
  updated_at : String
  author : Option AuthorNode
deriving Repr, DecidableEq

/-- Payload of the createIssue mutation (client.rs, struct CreateIssueData). -/
structure CreateIssueData where
  issue : CreatedIssueNode
deriving Repr, DecidableEq

/-- Response shape of the createIssue mutation (client.rs, struct
CreateIssueResponse). -/
structure CreateIssueResponse where
  create_issue : CreateIssueData
deriving Repr, DecidableEq

/-- GitHubClient::create_issue from the parsed mutation envelope onward
(client.rs lines 976-990): check the envelope, then build the Issue with an
empty label list and a zero comment count. -/
def create_issue (resp : GraphQLResponse CreateIssueResponse) : Except String Issue :=
  match graphqlCheck resp with
  | Except.error e => Except.error e
  | Except.ok result =>
    let issue := result.create_issue.issue
    Except.ok
      { number := issue.number
        title := issue.title
        state := issue.state
        url := issue.url
        created_at := issue.created_at
        updated_at := issue.updated_at
        author := issue.author.map AuthorNode.login
        labels := []
        comment_count := 0 }

/-! ## Serde round-trip model (models.rs, derive Serialize and Deserialize):
serialization to a serde_json value, field names as declared, an Option
field serialized as null when absent; deserialization reads each declared
field back by name. -/

/-- Serialization of an optional string field: serde writes null for None. -/
def encodeOptStr : Option String → Json
  | none => Json.null
  | some s => Json.str s

/-- Deserialize a required string field. -/
def decodeStr : Json → Option String
  | Json.str s => some s
  | _ => none

/-- Deserialize an optional string field: null reads back as None. -/
def decodeOptStr : Json → Option (Option String)
  | Json.null => some none
  | Json.str s => some (some s)
  | _ => none

/-- Deserialize an integer field. -/
def decodeInt : Json → Option Int
  | Json.num n => some n
  | _ => none

/-- Deserialize a boolean field. -/
def decodeBool : Json → Option Bool
  | Json.bool b => some b
  | _ => none

/-- Deserialize each element of an array. -/
def decodeList {α : Type} (dec : Json → Option α) : List Json → Option (List α)
  | [] => some []
  | x :: xs =>
    match dec x, decodeList dec xs with
    | some a, some rest => some (a :: rest)
    | _, _ => none

/-- Deserialize an array of strings. -/
def decodeStrList : Json → Option (List String)
  | Json.arr xs => decodeList decodeStr xs
  | _ => none

/-- Look a field up in a JSON object by name. -/
def Json.getField (j : Json) (key : String) : Option Json :=
  match j with
  | Json.obj fields => fields.lookup key
  | _ => none

/-- Serialization of User (models.rs field order). -/
def User.toJson (u : User) : Json :=
  Json.obj
    [ ("login", Json.str u.login)
    , ("name", encodeOptStr u.name)
    , ("email", encodeOptStr u.email)
    , ("avatar_url", Json.str u.avatar_url)
    , ("bio", encodeOptStr u.bio)
    , ("company", encodeOptStr u.company)
    , ("location", encodeOptStr u.location)
    , ("website_url", encodeOptStr u.website_url)
    , ("twitter_username", encodeOptStr u.twitter_username)
    , ("public_repos", Json.num u.public_repos)
    , ("followers", Json.num u.followers)
    , ("following", Json.num u.following)
    , ("created_at", Json.str u.created_at) ]

/-- Deserialization of User. -/
def User.fromJson (j : Json) : Option User :=
  match (j.getField "login").bind decodeStr with
  | none => none
  | some login =>
  match (j.getField "name").bind decodeOptStr with
  | none => none
  | some name =>
  match (j.getField "email").bind decodeOptStr with
  | none => none
  | some email =>
  match (j.getField "avatar_url").bind decodeStr with
  | none => none
  | some avatar_url =>
  match (j.getField "bio").bind decodeOptStr with
  | none => none
  | some bio =>
  match (j.getField "company").bind decodeOptStr with
  | none => none
  | some company =>
  match (j.getField "location").bind decodeOptStr with
  | none => none
  | some location =>
  match (j.getField "website_url").bind decodeOptStr with
  | none => none
  | some website_url =>
  match (j.getField "twitter_username").bind decodeOptStr with
  | none => none
  | some twitter_username =>
  match (j.getField "public_repos").bind decodeInt with
  | none => none
  | some public_repos =>
  match (j.getField "followers").bind decodeInt with
  | none => none
  | some followers =>
  match (j.getField "following").bind decodeInt with
  | none => none
  | some following =>
  match (j.getField "created_at").bind decodeStr with
  | none => none
  | some created_at =>
  some (User.mk login name email avatar_url bio company location
    website_url twitter_username public_repos followers following created_at)

/-- Serialization of Repository (models.rs field order). -/
def Repository.toJson (r : Repository) : Json :=
  Json.obj
    [ ("name", Json.str r.name)
    , ("full_name", Json.str r.full_name)
    , ("description", encodeOptStr r.description)
    , ("url", Json.str r.url)
    , ("is_private", Json.bool r.is_private)
    , ("is_fork", Json.bool r.is_fork)
    , ("stars", Json.num r.stars)
    , ("forks", Json.num r.forks)
    , ("language", encodeOptStr r.language)
    , ("updated_at", Json.str r.updated_at)
    , ("pushed_at", encodeOptStr r.pushed_at) ]

/-- Deserialization of Repository. -/
def Repository.fromJson (j : Json) : Option Repository :=
  match (j.getField "name").bind decodeStr with
  | none => none
  | some name =>
  match (j.getField "full_name").bind decodeStr with
  | none => none
  | some full_name =>
  match (j.getField "description").bind decodeOptStr with
  | none => none
  | some description =>
  match (j.getField "url").bind decodeStr with
  | none => none
  | some url =>
  match (j.getField "is_private").bind decodeBool with
  | none => none
  | some is_private =>
  match (j.getField "is_fork").bind decodeBool with
  | none => none
  | some is_fork =>
  match (j.getField "stars").bind decodeInt with
  | none => none
  | some stars =>
  match (j.getField "forks").bind decodeInt with
  | none => none
  | some forks =>
  match (j.getField "language").bind decodeOptStr with
  | none => none
  | some language =>
  match (j.getField "updated_at").bind decodeStr with
  | none => none
  | some updated_at =>
  match (j.getField "pushed_at").bind decodeOptStr with
  | none => none
  | some pushed_at =>
  some (Repository.mk name full_name description url is_private is_fork
    stars forks language updated_at pushed_at)

/-- Serialization of Issue (models.rs field order). -/
def Issue.toJson (i : Issue) : Json :=
  Json.obj
    [ ("number", Json.num i.number)
    , ("title", Json.str i.title)
    , ("state", Json.str i.state)
    , ("url", Json.str i.url)
    , ("created_at", Json.str i.created_at)
    , ("updated_at", Json.str i.updated_at)
    , ("author", encodeOptStr i.author)
    , ("labels", Json.arr (i.labels.map Json.str))
    , ("comment_count", Json.num i.comment_count) ]

/-- Deserialization of Issue. -/
def Issue.fromJson (j : Json) : Option Issue :=
  match (j.getField "number").bind decodeInt with
  | none => none
  | some number =>
  match (j.getField "title").bind decodeStr with
  | none => none
  | some title =>
  match (j.getField "state").bind decodeStr with
  | none => none
  | some state =>
  match (j.getField "url").bind decodeStr with
  | none => none
  | some url =>
  match (j.getField "created_at").bind decodeStr with
  | none => none
  | some created_at =>
  match (j.getField "updated_at").bind decodeStr with
  | none => none
  | some updated_at =>
  match (j.getField "author").bind decodeOptStr with
  | none => none
  | some author =>
  match (j.getField "labels").bind decodeStrList with
  | none => none
  | some labels =>
  match (j.getField "comment_count").bind decodeInt with
  | none => none
  | some comment_count =>
  some (Issue.mk number title state url created_at updated_at author labels
    comment_count)

/-- Serialization of Review (models.rs field order). -/
def Review.toJson (r : Review) : Json :=
  Json.obj
    [ ("author", encodeOptStr r.author)
    , ("state", Json.str r.state)
    , ("submitted_at", encodeOptStr r.submitted_at) ]

/-- Deserialization of Review. -/
def Review.fromJson (j : Json) : Option Review :=
  match (j.getField "author").bind decodeOptStr with
  | none => none
  | some author =>
  match (j.getField "state").bind decodeStr with
  | none => none
  | some state =>
  match (j.getField "submitted_at").bind decodeOptStr with
  | none => none
  | some submitted_at =>
  some (Review.mk author state submitted_at)

/-- Deserialize an array of reviews. -/
def decodeReviewList : Json → Option (List Review)
  | Json.arr xs => decodeList Review.fromJson xs
  | _ => none

/-- Serialization of PullRequest (models.rs field order). -/
def PullRequest.toJson (p : PullRequest) : Json :=
  Json.obj
    [ ("number", Json.num p.number)
    , ("title", Json.str p.title)
    , ("state", Json.str p.state)
    , ("url", Json.str p.url)
    , ("is_draft", Json.bool p.is_draft)
    , ("mergeable", Json.str p.mergeable)
    , ("created_at", Json.str p.created_at)
    , ("updated_at", Json.str p.updated_at)
    , ("author", encodeOptStr p.author)
    , ("head_branch", Json.str p.head_branch)
    , ("base_branch", Json.str p.base_branch)
    , ("additions", Json.num p.additions)
    , ("deletions", Json.num p.deletions)
    , ("changed_files", Json.num p.changed_files)
    , ("commit_count", Json.num p.commit_count)
    , ("comment_count", Json.num p.comment_count)
    , ("reviews", Json.arr (p.reviews.map Review.toJson)) ]

/-- Deserialization of PullRequest. -/
def PullRequest.fromJson (j : Json) : Option PullRequest :=
  match (j.getField "number").bind decodeInt with
  | none => none
  | some number =>
  match (j.getField "title").bind decodeStr with
  | none => none
  | some title =>
  match (j.getField "state").bind decodeStr with
  | none => none
  | some state =>
  match (j.getField "url").bind decodeStr with
  | none => none
  | some url =>
  match (j.getField "is_draft").bind decodeBool with
  | none => none
  | some is_draft =>
  match (j.getField "mergeable").bind decodeStr with
  | none => none
  | some mergeable =>
  match (j.getField "created_at").bind decodeStr with
  | none => none
  | some created_at =>
  match (j.getField "updated_at").bind decodeStr with
  | none => none
  | some updated_at =>
  match (j.getField "author").bind decodeOptStr with
  | none => none
  | some author =>
  match (j.getField "head_branch").bind decodeStr with
  | none => none
  | some head_branch =>
  match (j.getField "base_branch").bind decodeStr with
  | none => none
  | some base_branch =>
  match (j.getField "additions").bind decodeInt with
  | none => none
  | some additions =>
  match (j.getField "deletions").bind decodeInt with
  | none => none
  | some deletions =>
  match (j.getField "changed_files").bind decodeInt with
  | none => none
  | some changed_files =>
  match (j.getField "commit_count").bind decodeInt with
  | none => none
  | some commit_count =>
  match (j.getField "comment_count").bind decodeInt with
  | none => none
  | some comment_count =>
  match (j.getField "reviews").bind decodeReviewList with
  | none => none
  | some reviews =>
  some (PullRequest.mk number title state url is_draft mergeable created_at
    updated_at author head_branch base_branch additions deletions
    changed_files commit_count comment_count reviews)

/-- Serialization of Notification (models.rs field order). -/
def Notification.toJson (n : Notification) : Json :=
  Json.obj
    [ ("id", Json.str n.id)
    , ("unread", Json.bool n.unread)
    , ("reason", Json.str n.reason)
    , ("subject_title", Json.str n.subject_title)
    , ("subject_type", Json.str n.subject_type)
    , ("subject_url", encodeOptStr n.subject_url)
    , ("repo_full_name", Json.str n.repo_full_name)
    , ("updated_at", Json.str n.updated_at) ]

/-- Deserialization of Notification. -/
def Notification.fromJson (j : Json) : Option Notification :=
  match (j.getField "id").bind decodeStr with
  | none => none
  | some id =>
  match (j.getField "unread").bind decodeBool with
  | none => none
  | some unread =>
  match (j.getField "reason").bind decodeStr with
  | none => none
  | some reason =>
  match (j.getField "subject_title").bind decodeStr with
  | none => none
  | some subject_title =>
  match (j.getField "subject_type").bind decodeStr with
  | none => none
  | some subject_type =>
  match (j.getField "subject_url").bind decodeOptStr with
  | none => none
  | some subject_url =>
  match (j.getField "repo_full_name").bind decodeStr with
  | none => none
  | some repo_full_name =>
  match (j.getField "updated_at").bind decodeStr with
  | none => none
  | some updated_at =>
  some (Notification.mk id unread reason subject_title subject_type
    subject_url repo_full_name updated_at)

/-! ## Sample inputs used by the witness theorems -/

/-- A concrete fallback viewer record for the reduced user query. -/
def sampleViewerNoEmail : ViewerDataNoEmail :=
  { login := "octocat"
    name := some "The Octocat"
    avatar_url := "https://avatars.example/u/1"
    bio := none
    company := none
    location := none
    website_url := none
    twitter_username := none
    repositories := { total_count := 8 }
    followers := { total_count := 2 }
    following := { total_count := 3 }
    created_at := "2008-01-14T04:33:35Z" }

/-- A concrete successful createIssue mutation envelope. -/
def sampleCreateIssueEnvelope : GraphQLResponse CreateIssueResponse :=
  { data := some { create_issue := { issue :=
      { number := 7
        title := "Found a bug"
        state := "OPEN"
        url := "https://github.example/octocat/hello-world/issues/7"
        created_at := "2024-01-14T00:00:00Z"
        updated_at := "2024-01-14T00:00:00Z"
        author := some { login := "octocat" } } } }
    errors := none }

/-- A concrete upstream error record. -/
def sampleError : GraphQLError := { message := "boom", path := none }

/-- An envelope with no data and one error. -/
def sampleErrEnvelope : GraphQLResponse Bool :=
  { data := none, errors := some [sampleError] }

/-- An envelope with no data and no errors. -/
def sampleEmptyEnvelope : GraphQLResponse Bool :=
  { data := none, errors := none }

/-- An envelope with data and no errors. -/
def sampleDataEnvelope : GraphQLResponse Bool :=
  { data := some true, errors := none }

/-- Another concrete upstream error record. -/
def samplePartialError : GraphQLError := { message := "partial failure", path := none }

/-- An envelope carrying both data and a non-empty error list. -/
def sampleMixedEnvelope : GraphQLResponse Bool :=
  { data := some true, errors := some [samplePartialError] }

/-! ## Helper lemmas for the serde round-trip -/

/-- Emptiness of the empty string, stated for rewriting. -/
theorem isEmpty_empty_string : ("" : String).isEmpty = true := rfl

/-- Optional string fields survive the round trip. -/
theorem decodeOptStr_encodeOptStr (o : Option String) :
    decodeOptStr (encodeOptStr o) = some o := by
  cases o <;> rfl

/-- String arrays survive the round trip. -/
theorem decodeList_decodeStr (l : List String) :
    decodeList decodeStr (l.map Json.str) = some l := by
  induction l with
  | nil => rfl
  | cons x xs ih => simp [decodeList, decodeStr, ih]

/-- A single review survives the round trip. -/
theorem review_roundtrip (r : Review) :
    Review.fromJson (Review.toJson r) = some r := by
  obtain ⟨author, state, submitted_at⟩ := r
  simp [Review.toJson, Review.fromJson, Json.getField, List.lookup,
    decodeOptStr_encodeOptStr, decodeStr]

/-- Review arrays survive the round trip. -/
theorem decodeList_review (l : List Review) :
    decodeList Review.fromJson (l.map Review.toJson) = some l := by
  induction l with
  | nil => rfl
  | cons x xs ih => simp [decodeList, review_roundtrip, ih]

/-! ## Claim theorems -/

/-- C1, counterexample: with an explicit empty token and GITHUB_TOKEN set to
a non-empty value, GitHubClient::new keeps the empty explicit token instead
of falling back to the environment variable, so an explicit value wins even
when it is empty, contrary to the claimed non-empty guard. -/
theorem new_token_empty_explicit_counterexample :
    new_token (some "")
      { github_token := some "envtok", gh_token := none,
        gh_config_token := Except.error "no config" } = Except.ok "" ∧
    ("" : String) ≠ "envtok" :=
  ⟨rfl, by decide⟩

/-- C1, amended: an explicit token passed by the caller is used verbatim
whenever it is provided, even when empty; otherwise GITHUB_TOKEN is used if
set and non-empty; otherwise GH_TOKEN is used if set and non-empty;
otherwise the token is read from the config file, with no merging between
sources. -/
theorem credential_resolution_order (token : Option String) (env : CredentialEnv) :
    (∀ t, token = some t → new_token token env = Except.ok t) ∧
    (token = none → ∀ t, env.github_token = some t → t.isEmpty = false →
      new_token token env = Except.ok t) ∧
    (token = none → (env.github_token = none ∨ env.github_token = some "") →
      ∀ t, env.gh_token = some t → t.isEmpty = false →
      new_token token env = Except.ok t) ∧
    (token = none → (env.github_token = none ∨ env.github_token = some "") →
      (env.gh_token = none ∨ env.gh_token = some "") →
      new_token token env = env.gh_config_token) := by
  refine ⟨?_, ?_, ?_, ?_⟩
  · intro t ht
    simp [new_token, ht]
  · intro ht t hg hne
    simp [new_token, ht, resolve_token, hg, hne]
  · intro ht hg t hh hne
    rcases hg with hg | hg <;>
      simp [new_token, ht, resolve_token, resolve_token_tail, hg, hh, hne,
        isEmpty_empty_string]
  · intro ht hg hh
    rcases hg with hg | hg <;> rcases hh with hh | hh <;>
      simp [new_token, ht, resolve_token, resolve_token_tail, read_gh_token,
        hg, hh, isEmpty_empty_string]

/-- C1, witness: with no explicit token, GITHUB_TOKEN set to abc resolves
to abc. -/
theorem credential_resolution_order_witness :
    new_token none
      { github_token := some "abc", gh_token := none,
        gh_config_token := Except.error "no config" } = Except.ok "abc" :=
  (credential_resolution_order none
    { github_token := some "abc", gh_token := none,
      gh_config_token := Except.error "no config" }).2.1 rfl "abc" rfl rfl

/-- C2, counterexample: health is dispatched under its bare name, but its
namespaced alias github.health is rejected with the unknown-method error,
so not every method is reachable under both name forms. -/
theorem dispatch_health_alias_counterexample :
    dispatch_route "health" = Except.ok MethodHandler.health ∧
    dispatch_route "github.health" = Except.error "Unknown method: github.health" :=
  ⟨rfl, rfl⟩

/-- C2, amended: every method except health is reachable under both its
bare name and its github-prefixed alias, both mapping to the same handler;
health is reachable only under its bare name; any other name fails with
the unknown-method error. -/
theorem dispatch_route_names (m : String) :
    dispatch_route "health" = Except.ok MethodHandler.health ∧
    dispatch_route "user" = Except.ok MethodHandler.user ∧
    dispatch_route "github.user" = Except.ok MethodHandler.user ∧
    dispatch_route "repos" = Except.ok MethodHandler.repos ∧
    dispatch_route "github.repos" = Except.ok MethodHandler.repos ∧
    dispatch_route "issues" = Except.ok MethodHandler.issues ∧
    dispatch_route "github.issues" = Except.ok MethodHandler.issues ∧
    dispatch_route "prs" = Except.ok MethodHandler.prs ∧
    dispatch_route "github.prs" = Except.ok MethodHandler.prs ∧
    dispatch_route "pr" = Except.ok MethodHandler.pr ∧
    dispatch_route "github.pr" = Except.ok MethodHandler.pr ∧
    dispatch_route "notifications" = Except.ok MethodHandler.notifications ∧
    dispatch_route "github.notifications" = Except.ok MethodHandler.notifications ∧
    dispatch_route "create_issue" = Except.ok MethodHandler.create_issue ∧
    dispatch_route "github.create_issue" = Except.ok MethodHandler.create_issue ∧
    (m ∉ (["health", "user", "github.user", "repos", "github.repos",
        "issues", "github.issues", "prs", "github.prs", "pr", "github.pr",
        "notifications", "github.notifications", "create_issue",
        "github.create_issue"] : List String) →
      dispatch_route m = Except.error ("Unknown method: " ++ m)) := by
  refine ⟨rfl, rfl, rfl, rfl, rfl, rfl, rfl, rfl, rfl, rfl, rfl, rfl, rfl, rfl, rfl, ?_⟩
  intro h
  simp only [List.mem_cons, List.not_mem_nil, or_false, not_or] at h
  obtain ⟨h1, h2, h3, h4, h5, h6, h7, h8, h9, h10, h11, h12, h13, h14, h15⟩ := h
  simp [dispatch_route, h1, h2, h3, h4, h5, h6, h7, h8, h9, h10, h11, h12,
    h13, h14, h15]

/-- C2, witness: an unknown name fails with the unknown-method error. -/
theorem dispatch_route_names_witness :
    dispatch_route "gists" = Except.error "Unknown method: gists" :=
  (dispatch_route_names "gists").2.2.2.2.2.2.2.2.2.2.2.2.2.2.2 (by decide)

/-- C3: when the first user query fails with a message carrying the
missing-scope signature, get_user retries exactly once with the reduced
query and the returned user has no email; when the message does not carry
the signature, the error propagates unchanged with no retry. -/
theorem get_user_scope_fallback (e : String) (second : Except String ViewerDataNoEmail) :
    (scopeErrorSignature e = true → ∀ f, second = Except.ok f →
      get_user (Except.error e) second = Except.ok (userFromViewer f.toViewerData) ∧
      (userFromViewer f.toViewerData).email = none) ∧
    (scopeErrorSignature e = false →
      get_user (Except.error e) second = Except.error e) := by
  constructor
  · intro hs f hf
    subst hf
    exact ⟨by simp [get_user, hs], rfl⟩
  · intro hs
    simp [get_user, hs]

/-- C3, witness: a scope-signature failure followed by a successful reduced
query yields the email-free user; a non-signature failure propagates. -/
theorem get_user_scope_fallback_witness :
    (get_user (Except.error "query failure: token lacks user:email scope")
        (Except.ok sampleViewerNoEmail) =
      Except.ok (userFromViewer sampleViewerNoEmail.toViewerData) ∧
      (userFromViewer sampleViewerNoEmail.toViewerData).email = none) ∧
    get_user (Except.error "transport timeout")
        (Except.ok sampleViewerNoEmail) =
      Except.error "transport timeout" :=
  ⟨(get_user_scope_fallback "query failure: token lacks user:email scope"
      (Except.ok sampleViewerNoEmail)).1 (by decide) sampleViewerNoEmail rfl,
   (get_user_scope_fallback "transport timeout"
      (Except.ok sampleViewerNoEmail)).2 (by decide)⟩

/-- C4: splitting the repo parameter on the slash yields a result accepted
only when there are exactly two parts; any other part count fails with the
invalid-repo-format error, and two parts are returned as owner and name. -/
theorem parse_repo_exactly_two_parts (repo_str : String) :
    ((split_parts repo_str '/').length ≠ 2 →
      parse_repo repo_str =
        Except.error ("Invalid repo format. Expected owner/repo, got: " ++ repo_str)) ∧
    (∀ owner name, split_parts repo_str '/' = [owner, name] →
      parse_repo repo_str = Except.ok (owner, name)) := by
  constructor
  · intro h
    simp [parse_repo, h]
  · intro owner name h
    simp [parse_repo, h]

/-- C4, witness: one part and three parts fail, two parts are split into
owner and name. -/
theorem parse_repo_exactly_two_parts_witness :
    parse_repo "foo" =
      Except.error "Invalid repo format. Expected owner/repo, got: foo" ∧
    parse_repo "a/b/c" =
      Except.error "Invalid repo format. Expected owner/repo, got: a/b/c" ∧
    parse_repo "octocat/hello-world" = Except.ok ("octocat", "hello-world") :=
  ⟨(parse_repo_exactly_two_parts "foo").1 (by decide),
   (parse_repo_exactly_two_parts "a/b/c").1 (by decide),
   (parse_repo_exactly_two_parts "octocat/hello-world").2 "octocat"
     "hello-world" (by decide)⟩

/-- C5: a parsed envelope without data but with a non-empty error list
fails with the upstream-query error carrying the joined messages; without
data and without errors it fails with the malformed-response error; with
data present it succeeds with that data. -/
theorem graphql_envelope_handling {T : Type} (r : GraphQLResponse T) :
    (∀ es, r.data = none → r.errors = some es → es ≠ [] →
      graphqlCheck r = Except.error ("GraphQL errors: " ++ joinMessages es)) ∧
    (r.data = none → (r.errors = none ∨ r.errors = some []) →
      graphqlCheck r = Except.error "GraphQL response missing data field") ∧
    (∀ d, r.data = some d → graphqlCheck r = Except.ok d) := by
  refine ⟨?_, ?_, ?_⟩
  · intro es h1 h2 h3
    simp [graphqlCheck, h1, h2, h3]
  · intro h1 h2
    rcases h2 with h2 | h2 <;> simp [graphqlCheck, h1, h2]
  · intro d hd
    simp [graphqlCheck, hd]

/-- C5, witness: a one-error envelope without data fails with the joined
message, an empty envelope fails as malformed, and a data-carrying envelope
succeeds. -/
theorem graphql_envelope_handling_witness :
    graphqlCheck sampleErrEnvelope =
      Except.error ("GraphQL errors: " ++ joinMessages [sampleError]) ∧
    graphqlCheck sampleEmptyEnvelope =
      Except.error "GraphQL response missing data field" ∧
    graphqlCheck sampleDataEnvelope = Except.ok true :=
  ⟨(graphql_envelope_handling sampleErrEnvelope).1 [sampleError] rfl rfl
      (by simp),
   (graphql_envelope_handling sampleEmptyEnvelope).2.1 rfl (Or.inl rfl),
   (graphql_envelope_handling sampleDataEnvelope).2.2 true rfl⟩

/-- C6: the health probe is healthy only when the identity round trip
succeeds and yields a non-empty login; a successful round trip with an
empty login is reported unhealthy by both health and health_check. -/
theorem health_requires_nonempty_login (resp : Except String PingResponse) :
    (∀ r, resp = Except.ok r → r.viewer.login.isEmpty = false →
      health (ping resp) =
        Except.ok { status := "healthy", api_connected := true } ∧
      health_check (ping resp) = HealthStatus.healthy_with_latency) ∧
    (∀ r, resp = Except.ok r → r.viewer.login = "" →
      health (ping resp) =
        Except.ok { status := "unhealthy", api_connected := false } ∧
      health_check (ping resp) = HealthStatus.unhealthy "Empty viewer login") ∧
    (∀ e, resp = Except.error e →
      health (ping resp) = Except.error e ∧
      health_check (ping resp) = HealthStatus.unhealthy e) := by
  refine ⟨?_, ?_, ?_⟩
  · intro r hr hlogin
    subst hr
    constructor <;> simp [ping, health, health_check, hlogin]
  · intro r hr hlogin
    subst hr
    constructor <;> simp [ping, health, health_check, hlogin, String.isEmpty]
  · intro e hr
    subst hr
    constructor <;> simp [ping, health, health_check]

/-- C6, witness: a non-empty login is healthy, an empty login is unhealthy
even though the round trip succeeded. -/
theorem health_requires_nonempty_login_witness :
    (health (ping (Except.ok { viewer := { login := "octocat" } })) =
       Except.ok { status := "healthy", api_connected := true } ∧
     health_check (ping (Except.ok { viewer := { login := "octocat" } })) =
       HealthStatus.healthy_with_latency) ∧
    (health (ping (Except.ok { viewer := { login := "" } })) =
       Except.ok { status := "unhealthy", api_connected := false } ∧
     health_check (ping (Except.ok { viewer := { login := "" } })) =
       HealthStatus.unhealthy "Empty viewer login") :=
  ⟨(health_requires_nonempty_login
      (Except.ok { viewer := { login := "octocat" } })).1
      { viewer := { login := "octocat" } } rfl rfl,
   (health_requires_nonempty_login
      (Except.ok { viewer := { login := "" } })).2.1
      { viewer := { login := "" } } rfl rfl⟩

/-- C7: state-filter normalization is case-insensitive and total for both
listings: the standard tokens map to their filter sets, and any token whose
upper-casing is not recognized maps to the open-only filter rather than
failing. -/
theorem state_filter_normalization :
    issue_states "open" = "[OPEN]" ∧ issue_states "OPEN" = "[OPEN]" ∧
    issue_states "closed" = "[CLOSED]" ∧ issue_states "merged" = "[OPEN]" ∧
    issue_states "all" = "[OPEN, CLOSED]" ∧
    pr_states "open" = "[OPEN]" ∧ pr_states "OPEN" = "[OPEN]" ∧
    pr_states "closed" = "[CLOSED]" ∧ pr_states "merged" = "[MERGED]" ∧
    pr_states "all" = "[OPEN, CLOSED, MERGED]" ∧
    (∀ s, to_uppercase s ≠ "OPEN" → to_uppercase s ≠ "CLOSED" →
      to_uppercase s ≠ "ALL" → issue_states s = "[OPEN]") ∧
    (∀ s, to_uppercase s ≠ "OPEN" → to_uppercase s ≠ "CLOSED" →
      to_uppercase s ≠ "MERGED" → to_uppercase s ≠ "ALL" →
      pr_states s = "[OPEN]") := by
  refine ⟨rfl, rfl, rfl, rfl, rfl, rfl, rfl, rfl, rfl, rfl, ?_, ?_⟩
  · intro s h1 h2 h3
    unfold issue_states
    split <;> simp_all
  · intro s h1 h2 h3 h4
    unfold pr_states
    split <;> simp_all

/-- C7, witness: an unrecognized token resolves to the open-only filter in
both listings. -/
theorem state_filter_normalization_witness :
    issue_states "bogus" = "[OPEN]" ∧ pr_states "bogus" = "[OPEN]" :=
  ⟨state_filter_normalization.2.2.2.2.2.2.2.2.2.2.1 "bogus"
     (by decide) (by decide) (by decide),
   state_filter_normalization.2.2.2.2.2.2.2.2.2.2.2 "bogus"
     (by decide) (by decide) (by decide) (by decide)⟩

/-- C8: serializing each domain record to its value representation and
deserializing back yields the original record, for every User, Repository,
Issue, PullRequest with its reviews, and Notification. -/
theorem domain_record_roundtrip :
    (∀ u : User, User.fromJson (User.toJson u) = some u) ∧
    (∀ r : Repository, Repository.fromJson (Repository.toJson r) = some r) ∧
    (∀ i : Issue, Issue.fromJson (Issue.toJson i) = some i) ∧
    (∀ p : PullRequest, PullRequest.fromJson (PullRequest.toJson p) = some p) ∧
    (∀ n : Notification, Notification.fromJson (Notification.toJson n) = some n) := by
  refine ⟨?_, ?_, ?_, ?_, ?_⟩
  · intro u
    obtain ⟨f1, f2, f3, f4, f5, f6, f7, f8, f9, f10, f11, f12, f13⟩ := u
    simp [User.toJson, User.fromJson, Json.getField, List.lookup,
      decodeStr, decodeInt, decodeOptStr_encodeOptStr]
  · intro r
    obtain ⟨f1, f2, f3, f4, f5, f6, f7, f8, f9, f10, f11⟩ := r
    simp [Repository.toJson, Repository.fromJson, Json.getField, List.lookup,
      decodeStr, decodeInt, decodeBool, decodeOptStr_encodeOptStr]
  · intro i
    obtain ⟨f1, f2, f3, f4, f5, f6, f7, f8, f9⟩ := i
    simp [Issue.toJson, Issue.fromJson, Json.getField, List.lookup,
      decodeStr, decodeInt, decodeStrList, decodeOptStr_encodeOptStr,
      decodeList_decodeStr]
  · intro p
    obtain ⟨f1, f2, f3, f4, f5, f6, f7, f8, f9, f10, f11, f12, f13, f14,
      f15, f16, f17⟩ := p
    simp [PullRequest.toJson, PullRequest.fromJson, Json.getField,
      List.lookup, decodeStr, decodeInt, decodeBool, decodeReviewList,
      decodeOptStr_encodeOptStr, decodeList_review]
  · intro n
    obtain ⟨f1, f2, f3, f4, f5, f6, f7, f8⟩ := n
    simp [Notification.toJson, Notification.fromJson, Json.getField,
      List.lookup, decodeStr, decodeBool, decodeOptStr_encodeOptStr]

/-- C9: an envelope carrying both a data payload and a non-empty error list
succeeds with the data, discarding the errors. -/
theorem graphql_data_wins {T : Type} (r : GraphQLResponse T) (d : T)
    (es : List GraphQLError) :
    r.data = some d → r.errors = some es → es ≠ [] →
    graphqlCheck r = Except.ok d := by
  intro hd he hne
  simp [graphqlCheck, hd]

/-- C9, witness: data plus one error still succeeds with the data. -/
theorem graphql_data_wins_witness :
    graphqlCheck sampleMixedEnvelope = Except.ok true :=
  graphql_data_wins sampleMixedEnvelope true [samplePartialError] rfl rfl
    (by simp)

/-- C10: every issue returned by create_issue has an empty label list and a
zero comment count, and its remaining fields are those of the created issue
node of the upstream envelope. -/
theorem create_issue_empty_labels (resp : GraphQLResponse CreateIssueResponse)
    (issue : Issue) :
    create_issue resp = Except.ok issue →
    issue.labels = [] ∧ issue.comment_count = 0 ∧
    (∀ result, graphqlCheck resp = Except.ok result →
      issue.number = result.create_issue.issue.number ∧
      issue.title = result.create_issue.issue.title ∧
      issue.state = result.create_issue.issue.state ∧
      issue.url = result.create_issue.issue.url ∧
      issue.created_at = result.create_issue.issue.created_at ∧
      issue.updated_at = result.create_issue.issue.updated_at ∧
      issue.author = result.create_issue.issue.author.map AuthorNode.login) := by
  intro h
  cases hg : graphqlCheck resp with
  | error e => simp [create_issue, hg] at h
  | ok result =>
    simp [create_issue, hg] at h
    subst h
    refine ⟨rfl, rfl, ?_⟩
    intro result2 hr
    injection hr with hrr
    subst hrr
    exact ⟨rfl, rfl, rfl, rfl, rfl, rfl, rfl⟩

/-- C10, witness: the sample created issue comes back with no labels and a
zero comment count. -/
theorem create_issue_empty_labels_witness :
    (match create_issue sampleCreateIssueEnvelope with
      | Except.ok issue => issue.labels = [] ∧ issue.comment_count = 0
      | Except.error _ => False) := by
  have h := create_issue_empty_labels sampleCreateIssueEnvelope
    { number := 7, title := "Found a bug", state := "OPEN",
      url := "https://github.example/octocat/hello-world/issues/7",
      created_at := "2024-01-14T00:00:00Z",
      updated_at := "2024-01-14T00:00:00Z",
      author := some "octocat", labels := [], comment_count := 0 } rfl
  exact ⟨h.1, h.2.1⟩

end FgpGithub
